import Mathlib

/-!
# Verification of the character-state and level-progression engine

Shallow embedding of `src/util.py` and `src/classes.py` of the
`character_simulator` repository.  Python dictionaries keyed by stat names
become association lists (`Dict`), the pseudo-random stream becomes an
explicit list of natural-number draws (each `randint`/`choice`/shuffle step
consumes one draw `d`, with the uniform value obtained as `d` modulo the
size of the range), and a Python computation that may raise or may keep
looping becomes a `PyResult`.
-/

set_option autoImplicit false

namespace CharSim

/-- Outcome of an embedded Python computation: a value, a raised exception
(identified by its exception-class name), or a computation that consumed
every supplied random draw and is still running (used to reason about the
unbounded retry loop). -/
inductive PyResult (α : Type) where
  | ok (val : α)
  | exn (msg : String)
  | moreDraws
deriving DecidableEq, Repr

/-- `StatSelection` enum from `classes.py` (declaration order matters:
`list(StatSelection)` enumerates in this order). -/
inductive StatSelection where
  | ROLL_4D6_DROP_ONE
  | STANDARD_ARRAY
  | ROLL_3D6
  | RANDOM
deriving DecidableEq, Repr

/-- `HPSelection` enum from `classes.py`. -/
inductive HPSelection where
  | ROLL_HP
  | TAKE_AVG
  | RANDOM
deriving DecidableEq, Repr

/-- `ASISelection` enum from `classes.py`. -/
inductive ASISelection where
  | STRICT_FOCUS
  | FOCUS_ODD_TO_EVEN
  | FOCUS_NON_NEG_MOD
  | RANDOM
deriving DecidableEq, Repr

/-- A Python dict mapping stat names to integer scores, in insertion order. -/
abbrev Dict := List (String × Int)

/-- Python `d[k]` as a partial lookup (first matching key). -/
def dictGet : Dict → String → Option Int
  | [], _ => none
  | (k', v) :: rest, k => if k' = k then some v else dictGet rest k

/-- Python `k in d`. -/
def dictHas (d : Dict) (k : String) : Bool :=
  (dictGet d k).isSome

/-- Python `d[k] = v`: replace the value in place if the key exists,
otherwise append the new key at the end (dict insertion order). -/
def dictSet : Dict → String → Int → Dict
  | [], k, v => [(k, v)]
  | (k', v') :: rest, k, v =>
    if k' = k then (k, v) :: rest else (k', v') :: dictSet rest k v

/-- Python `d[k] += v`; `none` models the `KeyError` when `k` is absent. -/
def dictAdd (d : Dict) (k : String) (v : Int) : Option Dict :=
  match dictGet d k with
  | some old => some (dictSet d k (old + v))
  | none => none

/-- Python `dict(zip(ks, vs))`: pair keys with values (truncating at the
shorter list) and insert the pairs in order into an empty dict. -/
def dictOfZipAux : Dict → List String → List Int → Dict
  | d, [], _ => d
  | d, _, [] => d
  | d, k :: ks, v :: vs => dictOfZipAux (dictSet d k v) ks vs

/-- Python `dict(zip(ks, vs))`. -/
def dictOfZip (ks : List String) (vs : List Int) : Dict :=
  dictOfZipAux [] ks vs

/-- The list `['Str','Dex','Con','Int','Wis','Cha']` that appears literally
in `classes.py` (stat-name list and `not_allowed` branch). -/
def sixStats : List String := ["Str", "Dex", "Con", "Int", "Wis", "Cha"]

/-! ## util.py -/

/-- The guard `type(score) == 'int'` in `util.stat_mod_from_score`: it
compares the *type object* `int` with the *string* `'int'`.  In Python two
objects of different types compare unequal, so this guard is `False` for
every argument. -/
def int_type_equals_string_int : Bool := false

/-- `util.stat_mod_from_score(score)`, translated from the source:
`if type(score) == 'int': return math.floor((10 - score) / 2); return None`.
Because the guard compares a type with a string it never holds, so the
function returns `None` (here `none`) for every integer input.  Integer
division of `Int` by the positive literal `2` is floor division, matching
`math.floor((10 - score) / 2)` on exactly-representable values. -/
def stat_mod_from_score (score : Int) : Option Int :=
  if int_type_equals_string_int then some ((10 - score) / 2) else none

/-- The modifier formula stated by the specification:
`floor((10 - score) / 2)`.  Used to compare the code against the spec. -/
def stat_mod_spec (score : Int) : Int := (10 - score) / 2

/-! ## ASIRecord.choose_stats (classes.py lines 83-255) -/

/-- The eligibility filter at the top of each loop body:
`if stat_opts is not None and stat not in stat_opts: continue`.
The stat is considered exactly when this returns `true`. -/
def statOptsAllows (stat_opts : Option (List String)) (stat : String) : Bool :=
  match stat_opts with
  | none => true
  | some opts => opts.contains stat

/-- The `STRICT_FOCUS` loop body (also the literal fallback pass inside the
`FOCUS_ODD_TO_EVEN` and `FOCUS_NON_NEG_MOD` branches): walk the focus order,
and for each non-filtered stat with `cur[stat] < 20` compute
`diff_from_20 = 20 - cur[stat] + retval.count(stat)`; on `diff >= 2` append
the stat (twice when the queue was empty), on `diff == 1` append it once;
stop as soon as two entries are queued.  `exn` models the `KeyError` on a
missing stat. -/
def strictPass (stat_opts : Option (List String)) (cur_stats : Dict) :
    List String → List String → PyResult (List String)
  | [], retval => .ok retval
  | stat :: rest, retval =>
    if statOptsAllows stat_opts stat then
      match dictGet cur_stats stat with
      | none => .exn "KeyError"
      | some score =>
        let retval' :=
          if score < 20 then
            let diff : Int := 20 - score + (retval.count stat : Int)
            if diff ≥ 2 then
              let r := retval ++ [stat]
              if r.length = 1 then r ++ [stat] else r
            else if diff = 1 then retval ++ [stat]
            else retval
          else retval
        if retval'.length = 2 then .ok retval' else strictPass stat_opts cur_stats rest retval'
    else strictPass stat_opts cur_stats rest retval

/-- First pass of the `FOCUS_ODD_TO_EVEN` branch: skip filtered stats and
stats at 20 or above, queue each stat with an odd score once, stop at two. -/
def oddPass (stat_opts : Option (List String)) (cur_stats : Dict) :
    List String → List String → PyResult (List String)
  | [], retval => .ok retval
  | stat :: rest, retval =>
    if statOptsAllows stat_opts stat then
      match dictGet cur_stats stat with
      | none => .exn "KeyError"
      | some score =>
        if score ≥ 20 then oddPass stat_opts cur_stats rest retval
        else
          let retval' := if score % 2 = 1 then retval ++ [stat] else retval
          if retval'.length = 2 then .ok retval' else oddPass stat_opts cur_stats rest retval'
    else oddPass stat_opts cur_stats rest retval

/-- First pass of the `FOCUS_NON_NEG_MOD` branch: skip filtered stats and
stats at 20 or above; for a stat scoring below 10 compute
`diff_from_10 = 10 - cur[stat] + retval.count(stat)` and queue it analogously
to the strict pass; stop at two. -/
def nonNegPass (stat_opts : Option (List String)) (cur_stats : Dict) :
    List String → List String → PyResult (List String)
  | [], retval => .ok retval
  | stat :: rest, retval =>
    if statOptsAllows stat_opts stat then
      match dictGet cur_stats stat with
      | none => .exn "KeyError"
      | some score =>
        if score ≥ 20 then nonNegPass stat_opts cur_stats rest retval
        else
          let retval' :=
            if score < 10 then
              let diff : Int := 10 - score + (retval.count stat : Int)
              if diff ≥ 2 then
                let r := retval ++ [stat]
                if r.length = 1 then r ++ [stat] else r
              else if diff = 1 then retval ++ [stat]
              else retval
            else retval
          if retval'.length = 2 then .ok retval' else nonNegPass stat_opts cur_stats rest retval'
    else nonNegPass stat_opts cur_stats rest retval

/-- The `ASISelection.RANDOM` branch: `while len(retval) < 2`, draw a stat
uniformly from `stat_focus` (one draw per iteration), skip it if filtered
out, and append it when `cur[stat] + retval.count(stat) < 20`.  When the
supplied draws run out with fewer than two entries queued the loop is still
running (`moreDraws`); `rng.choice` on an empty focus list raises. -/
def randomPass (stat_opts : Option (List String)) (stat_focus : List String)
    (cur_stats : Dict) : List Nat → List String → PyResult (List String × List Nat)
  | [], retval => if retval.length < 2 then .moreDraws else .ok (retval, [])
  | d :: rest, retval =>
    if retval.length < 2 then
      match stat_focus.get? (d % stat_focus.length) with
      | none => .exn "IndexError"
      | some stat =>
        if statOptsAllows stat_opts stat then
          match dictGet cur_stats stat with
          | none => .exn "KeyError"
          | some score =>
            if score + (retval.count stat : Int) < 20 then
              randomPass stat_opts stat_focus cur_stats rest (retval ++ [stat])
            else randomPass stat_opts stat_focus cur_stats rest retval
        else randomPass stat_opts stat_focus cur_stats rest retval
    else .ok (retval, d :: rest)

/-- `ASIRecord.choose_stats(method, stat_focus, cur_stats, rng, stat_opts)`.
Returns the chosen list together with the random draws left unconsumed.
The two focus-repair methods fall back to the strict pass (over the full
focus order, keeping the already-queued entries) when their first pass chose
fewer than two stats; in the source the enum has no further values, so the
`retval = []` default branch is unreachable for genuine `ASISelection`
values. -/
def choose_stats (method : ASISelection) (stat_focus : List String)
    (cur_stats : Dict) (draws : List Nat) (stat_opts : Option (List String)) :
    PyResult (List String × List Nat) :=
  match method with
  | .STRICT_FOCUS =>
    match strictPass stat_opts cur_stats stat_focus [] with
    | .ok r => .ok (r, draws)
    | .exn e => .exn e
    | .moreDraws => .moreDraws
  | .FOCUS_ODD_TO_EVEN =>
    match oddPass stat_opts cur_stats stat_focus [] with
    | .ok r =>
      if r.length < 2 then
        match strictPass stat_opts cur_stats stat_focus r with
        | .ok r' => .ok (r', draws)
        | .exn e => .exn e
        | .moreDraws => .moreDraws
      else .ok (r, draws)
    | .exn e => .exn e
    | .moreDraws => .moreDraws
  | .FOCUS_NON_NEG_MOD =>
    match nonNegPass stat_opts cur_stats stat_focus [] with
    | .ok r =>
      if r.length < 2 then
        match strictPass stat_opts cur_stats stat_focus r with
        | .ok r' => .ok (r', draws)
        | .exn e => .exn e
        | .moreDraws => .moreDraws
      else .ok (r, draws)
    | .exn e => .exn e
    | .moreDraws => .moreDraws
  | .RANDOM => randomPass stat_opts stat_focus cur_stats draws []

/-- `ASIRecord.perform_asi(cur_stats, chosen_stats)`: add 1 to a copy of the
stats for each occurrence of each chosen stat name; a name missing from the
dict raises `KeyError`. -/
def perform_asi : Dict → List String → PyResult Dict
  | cur_stats, [] => .ok cur_stats
  | cur_stats, stat :: rest =>
    match dictAdd cur_stats stat 1 with
    | some cur' => perform_asi cur' rest
    | none => .exn "KeyError"

/-! ## ASIRecord construction (classes.py lines 66-81) -/

/-- The members set by `ASIRecord.__init__`. -/
structure ASIRecord where
  method : ASISelection
  old_stats : Dict
  stat_focus : List String
  chosen_stats : List String
  new_stats : Dict
deriving DecidableEq, Repr

/-- `ASIRecord.__init__(method, cur_stats, stat_focus, rng)`: copy the stats
and the focus order, call `choose_stats` with the given random stream and
the `stat_opts=None` default, then apply `perform_asi`.  Returns the record
and the unconsumed draws of the stream that was passed in. -/
def mkASIRecord (method : ASISelection) (cur_stats : Dict)
    (stat_focus : List String) (draws : List Nat) :
    PyResult (ASIRecord × List Nat) :=
  match choose_stats method stat_focus cur_stats draws none with
  | .exn e => .exn e
  | .moreDraws => .moreDraws
  | .ok (chosen, draws') =>
    match perform_asi cur_stats chosen with
    | .exn e => .exn e
    | .moreDraws => .moreDraws
    | .ok ns =>
      .ok ({ method := method, old_stats := cur_stats, stat_focus := stat_focus,
             chosen_stats := chosen, new_stats := ns }, draws')

/-! ## Random-stream primitives -/

/-- `rng.randint(lo, hi)` : one draw, uniform value in `[lo, hi]`
(`d % (hi - lo + 1)` added to `lo`); an empty range raises `ValueError`. -/
def randint (lo hi : Int) (draws : List Nat) : PyResult (Int × List Nat) :=
  match draws with
  | [] => .moreDraws
  | d :: rest =>
    if hi < lo then .exn "ValueError"
    else .ok (lo + (d : Int) % (hi - lo + 1), rest)

/-- `rng.choice(l)` : one draw indexing into `l`; empty `l` raises. -/
def rngChoice {α : Type} (l : List α) (draws : List Nat) :
    PyResult (α × List Nat) :=
  match draws with
  | [] => .moreDraws
  | d :: rest =>
    match l.get? (d % l.length) with
    | some x => .ok (x, rest)
    | none => .exn "IndexError"

/-- Swap two positions of a list (identity when an index is out of range). -/
def listSwap {α : Type} (l : List α) (i j : Nat) : List α :=
  match l.get? i, l.get? j with
  | some a, some b => (l.set i b).set j a
  | _, _ => l

/-- The Fisher-Yates steps of `rng.shuffle(x)`: for `i` from `len(x) - 1`
down to `1`, draw `j` uniform in `[0, i]` and swap `x[i]` with `x[j]`.
One draw per step. -/
def shuffleAux {α : Type} : List α → Nat → List Nat → PyResult (List α × List Nat)
  | x, 0, draws => .ok (x, draws)
  | x, i + 1, draws =>
    match draws with
    | [] => .moreDraws
    | d :: rest => shuffleAux (listSwap x (i + 1) (d % (i + 2))) i rest

/-- `rng.shuffle(x)` (returning the shuffled list with remaining draws). -/
def shuffle {α : Type} (x : List α) (draws : List Nat) :
    PyResult (List α × List Nat) :=
  match x.length with
  | 0 => .ok (x, draws)
  | n + 1 => shuffleAux x n draws

/-! ## Character ability-score generation (classes.py lines 410-462) -/

/-- `list(StatSelection)` in enum-declaration order. -/
def statSelectionList : List StatSelection :=
  [.ROLL_4D6_DROP_ONE, .STANDARD_ARRAY, .ROLL_3D6, .RANDOM]

/-- `list(HPSelection)` in enum-declaration order. -/
def hpSelectionList : List HPSelection := [.ROLL_HP, .TAKE_AVG, .RANDOM]

/-- Stable descending insertion, modelling `sorted(l, reverse=True)`. -/
def insertDesc (x : Int) : List Int → List Int
  | [] => [x]
  | y :: ys => if x > y then x :: y :: ys else y :: insertDesc x ys

/-- `sorted(l, reverse=True)`. -/
def sortDesc (l : List Int) : List Int :=
  l.foldr insertDesc []

/-- One score of the `ROLL_4D6_DROP_ONE` method: roll `randint(1,6)` four
times, sort descending, `pop()` the last (lowest) roll, sum the rest. -/
def roll_score_4d6 (draws : List Nat) : PyResult (Int × List Nat) :=
  match randint 1 6 draws with
  | .exn e => .exn e
  | .moreDraws => .moreDraws
  | .ok (r1, d1) =>
    match randint 1 6 d1 with
    | .exn e => .exn e
    | .moreDraws => .moreDraws
    | .ok (r2, d2) =>
      match randint 1 6 d2 with
      | .exn e => .exn e
      | .moreDraws => .moreDraws
      | .ok (r3, d3) =>
        match randint 1 6 d3 with
        | .exn e => .exn e
        | .moreDraws => .moreDraws
        | .ok (r4, d4) =>
          .ok ((sortDesc [r1, r2, r3, r4]).dropLast.sum, d4)

/-- One score of the `ROLL_3D6` method: the sum of three `randint(1,6)`. -/
def roll_score_3d6 (draws : List Nat) : PyResult (Int × List Nat) :=
  match randint 1 6 draws with
  | .exn e => .exn e
  | .moreDraws => .moreDraws
  | .ok (r1, d1) =>
    match randint 1 6 d1 with
    | .exn e => .exn e
    | .moreDraws => .moreDraws
    | .ok (r2, d2) =>
      match randint 1 6 d2 with
      | .exn e => .exn e
      | .moreDraws => .moreDraws
      | .ok (r3, d3) => .ok (r1 + r2 + r3, d3)

/-- `for i in range(n): scores.append(roll(...))`. -/
def gen_scores (roll : List Nat → PyResult (Int × List Nat)) :
    Nat → List Nat → List Int → PyResult (List Int × List Nat)
  | 0, draws, acc => .ok (acc, draws)
  | n + 1, draws, acc =>
    match roll draws with
    | .exn e => .exn e
    | .moreDraws => .moreDraws
    | .ok (s, draws') => gen_scores roll n draws' (acc ++ [s])

/-- The raw-score generation of `Character.__init__` (lines 410-453).  In
the `RANDOM` branch the choice is drawn from `list(StatSelection)` — all
four enum values — and the trailing `else` applies the standard array both
for a drawn `STANDARD_ARRAY` and for a drawn `RANDOM`. -/
def gen_raw_scores (stat_select : StatSelection) (draws : List Nat) :
    PyResult (List Int × List Nat) :=
  match stat_select with
  | .ROLL_4D6_DROP_ONE => gen_scores roll_score_4d6 6 draws []
  | .ROLL_3D6 => gen_scores roll_score_3d6 6 draws []
  | .STANDARD_ARRAY => .ok ([15, 14, 13, 12, 10, 8], draws)
  | .RANDOM =>
    match rngChoice statSelectionList draws with
    | .exn e => .exn e
    | .moreDraws => .moreDraws
    | .ok (choice, draws') =>
      match choice with
      | .ROLL_4D6_DROP_ONE => gen_scores roll_score_4d6 6 draws' []
      | .ROLL_3D6 => gen_scores roll_score_3d6 6 draws' []
      | _ => .ok ([15, 14, 13, 12, 10, 8], draws')

/-- Which generation routine actually runs for a given draw in the `RANDOM`
branch of the score generation (the body of lines 434-453). -/
inductive GenRoutine where
  | roll4d6DropOne
  | roll3d6
  | standardArray
deriving DecidableEq, Repr

/-- The enum value drawn by `self.rng.choice(list(StatSelection))` for a
draw `d` (uniform over the four list positions). -/
def random_mode_choice (d : Nat) : Option StatSelection :=
  statSelectionList.get? (d % statSelectionList.length)

/-- The routine the `RANDOM` branch applies for a draw `d`: the chain of
conditionals maps `ROLL_4D6_DROP_ONE` and `ROLL_3D6` to themselves and
everything else — including a drawn `RANDOM` — to the standard array. -/
def random_mode_routine (d : Nat) : GenRoutine :=
  match random_mode_choice d with
  | some .ROLL_4D6_DROP_ONE => .roll4d6DropOne
  | some .ROLL_3D6 => .roll3d6
  | _ => .standardArray

/-- The score-to-stat assignment (lines 455-462): in the `RANDOM` mode
shuffle the literal stat-name list and the scores independently and zip
them; in every other mode zip the focus order with the scores sorted
descending. -/
def assign_scores (stat_select : StatSelection) (stat_focus : List String)
    (scores : List Int) (draws : List Nat) : PyResult (Dict × List Nat) :=
  if stat_select = .RANDOM then
    match shuffle sixStats draws with
    | .exn e => .exn e
    | .moreDraws => .moreDraws
    | .ok (names, dA) =>
      match shuffle scores dA with
      | .exn e => .exn e
      | .moreDraws => .moreDraws
      | .ok (scores', dB) => .ok (dictOfZip names scores', dB)
  else .ok (dictOfZip stat_focus (sortDesc scores), draws)

/-! ## Racial bonuses and the racial ASI loop (classes.py lines 464-508) -/

/-- The optional generic ASI grant of a race or subrace entry
(`{'size': ..., 'number': ..., 'allowed': ...?, 'not_allowed': ...?}`). -/
structure RaceASI where
  number : Nat
  allowed : Option (List String)
  not_allowed : Option String
deriving DecidableEq, Repr

/-- The fields of a race (or subrace) entry that `Character.__init__`
reads: the per-stat flat bonuses and the optional ASI grant. -/
structure RaceEntry where
  bonuses : Dict
  asi : Option RaceASI
deriving DecidableEq, Repr

/-- Lines 479-484 (and their subrace copies 496-501): with an `allowed`
list the options are that list; with a `not_allowed` entry the options are
set to the *full* six-stat list (the named stat is not removed); otherwise
there is no restriction. -/
def racial_stat_opts (asi : RaceASI) : Option (List String) :=
  match asi.allowed with
  | some l => some l
  | none =>
    match asi.not_allowed with
    | some _ => some sixStats
    | none => none

/-- `self.stats[stat] += race_data[self.race][stat]` looped over
`self.stat_focus` (lines 468-472); either missing key raises `KeyError`,
the stats lookup being evaluated first. -/
def apply_bonuses (bonuses : Dict) : Dict → List String → PyResult Dict
  | stats, [] => .ok stats
  | stats, stat :: rest =>
    match dictGet stats stat with
    | none => .exn "KeyError"
    | some cur =>
      match dictGet bonuses stat with
      | none => .exn "KeyError"
      | some b => apply_bonuses bonuses (dictSet stats stat (cur + b)) rest

/-- The racial ASI loop body repeated `number` times (lines 477-491 and
493-508): call `choose_stats` with the character stream and the computed
options, `choices.pop()` the last element (raising `IndexError` on an empty
selection), then `perform_asi` with the remaining prefix. -/
def racial_asi_loop (asi_select : ASISelection) (stat_focus : List String)
    (stat_opts : Option (List String)) :
    Nat → Dict → List Nat → PyResult (Dict × List Nat)
  | 0, stats, draws => .ok (stats, draws)
  | n + 1, stats, draws =>
    match choose_stats asi_select stat_focus stats draws stat_opts with
    | .exn e => .exn e
    | .moreDraws => .moreDraws
    | .ok (choices, draws') =>
      if choices = [] then .exn "IndexError"
      else
        match perform_asi stats choices.dropLast with
        | .exn e => .exn e
        | .moreDraws => .moreDraws
        | .ok stats' => racial_asi_loop asi_select stat_focus stat_opts n stats' draws'

/-- The stats pipeline of `Character.__init__` (the `subrace is None` path;
the subrace path is a verbatim copy reading the subrace entry): generate
raw scores, assign them to stats, add the racial flat bonuses over the
focus order, then run the optional racial ASI loop.  All randomness is
taken from `draws`, the stream of `self.rng` seeded from `self.seed`. -/
def character_init_stats (race : RaceEntry) (stat_focus : List String)
    (stat_select : StatSelection) (asi_select : ASISelection)
    (draws : List Nat) : PyResult (Dict × List Nat) :=
  match gen_raw_scores stat_select draws with
  | .exn e => .exn e
  | .moreDraws => .moreDraws
  | .ok (scores, draws1) =>
    match assign_scores stat_select stat_focus scores draws1 with
    | .exn e => .exn e
    | .moreDraws => .moreDraws
    | .ok (stats0, draws2) =>
      match apply_bonuses race.bonuses stats0 stat_focus with
      | .exn e => .exn e
      | .moreDraws => .moreDraws
      | .ok stats1 =>
        match race.asi with
        | none => .ok (stats1, draws2)
        | some a =>
          racial_asi_loop asi_select stat_focus (racial_stat_opts a) a.number stats1 draws2

/-! ## LevelRecord (classes.py lines 277-354) -/

/-- The per-class rule data that `LevelRecord.__init__` reads from
`data/class_data.json`: the per-level feature lists and the hit-die
parameters. -/
structure ClassInfo where
  LevelTable : List (Nat × List String)
  HitDiceValue : Int
  HitDiceAvg : Int
deriving DecidableEq, Repr

/-- `class_data[name]` lookup. -/
def lookupClass (class_data : List (String × ClassInfo)) (name : String) :
    Option ClassInfo :=
  match class_data with
  | [] => none
  | (k, v) :: rest => if k = name then some v else lookupClass rest name

/-- `LevelTable[str(level)]` lookup. -/
def lookupLevel (t : List (Nat × List String)) (lvl : Nat) :
    Option (List String) :=
  match t with
  | [] => none
  | (k, v) :: rest => if k = lvl then some v else lookupLevel rest lvl

/-- Lines 322-329 of `LevelRecord.__init__`: when the feature list contains
"Ability Score Improvement", build an `ASIRecord` — note that the call
`ASIRecord(self.asi_method, self.cur_stats, self.stat_focus)` passes *no*
rng, so the record draws from the module-level default `random.Random()`
instance shared by every call, modelled here as the separate stream
`glob`; otherwise keep the stats unchanged. -/
def level_asi_stage (features : List String) (asi_method : ASISelection)
    (cur_stats : Dict) (stat_focus : List String) (glob : List Nat) :
    PyResult (Option ASIRecord × Dict × List Nat) :=
  if features.contains "Ability Score Improvement" then
    match mkASIRecord asi_method cur_stats stat_focus glob with
    | .exn e => .exn e
    | .moreDraws => .moreDraws
    | .ok (rec, glob') => .ok (some rec, rec.new_stats, glob')
  else .ok (none, cur_stats, glob)

/-- Forget the unconsumed remainder of the shared default stream, keeping
the observable outcome of the ASI stage. -/
def stageObs (r : PyResult (Option ASIRecord × Dict × List Nat)) :
    PyResult (Option ASIRecord × Dict) :=
  match r with
  | .ok (a, d, _) => .ok (a, d)
  | .exn e => .exn e
  | .moreDraws => .moreDraws

/-- The members of a completed `LevelRecord`. -/
structure LevelRecord where
  level_class : String
  level : Nat
  cur_stats : Dict
  hp_method : HPSelection
  asi_method : ASISelection
  stat_focus : List String
  features : List String
  asi : Option ASIRecord
  new_stats : Dict
  hp_increase : Int
deriving DecidableEq, Repr

/-- The ROLL_HP hit-point computation (lines 332-336 and 345-349):
`rng.randint(1, HitDiceValue) + util.stat_mod_from_score(cur_stats['Con'])`.
The roll is drawn first; `stat_mod_from_score` returns `None`, so the
addition of an `int` and `None` raises `TypeError`. -/
def hp_roll_path (info : ClassInfo) (cur_stats : Dict) (draws : List Nat) :
    PyResult (Int × List Nat) :=
  match randint 1 info.HitDiceValue draws with
  | .exn e => .exn e
  | .moreDraws => .moreDraws
  | .ok (roll, draws') =>
    match dictGet cur_stats "Con" with
    | none => .exn "KeyError"
    | some con =>
      match stat_mod_from_score con with
      | some m => .ok (roll + m, draws')
      | none => .exn "TypeError"

/-- The TAKE_AVG hit-point computation (lines 337-341 and 350-354):
`HitDiceAvg + util.stat_mod_from_score(cur_stats['Con'])`. -/
def hp_avg_path (info : ClassInfo) (cur_stats : Dict) (draws : List Nat) :
    PyResult (Int × List Nat) :=
  match dictGet cur_stats "Con" with
  | none => .exn "KeyError"
  | some con =>
    match stat_mod_from_score con with
    | some m => .ok (info.HitDiceAvg + m, draws)
    | none => .exn "TypeError"

/-- `LevelRecord.__init__`: look up the class and level entry, run the ASI
stage (drawing from the shared default stream `glob`), then compute the
hit-point increase from the method — the `else` branch draws a choice from
`list(HPSelection)` out of the passed rng stream `char` and rolls exactly
when it lands on `ROLL_HP`.  Returns the record with the two remaining
streams. -/
def mkLevelRecord (class_data : List (String × ClassInfo))
    (level_class : String) (level : Nat) (cur_stats : Dict)
    (hp_method : HPSelection) (asi_method : ASISelection)
    (stat_focus : List String) (char glob : List Nat) :
    PyResult (LevelRecord × List Nat × List Nat) :=
  match lookupClass class_data level_class with
  | none => .exn "KeyError"
  | some info =>
    match lookupLevel info.LevelTable level with
    | none => .exn "KeyError"
    | some features =>
      match level_asi_stage features asi_method cur_stats stat_focus glob with
      | .exn e => .exn e
      | .moreDraws => .moreDraws
      | .ok (asi, new_stats, glob') =>
        let hp : PyResult (Int × List Nat) :=
          match hp_method with
          | .ROLL_HP => hp_roll_path info cur_stats char
          | .TAKE_AVG => hp_avg_path info cur_stats char
          | .RANDOM =>
            match rngChoice hpSelectionList char with
            | .exn e => .exn e
            | .moreDraws => .moreDraws
            | .ok (c, ds) =>
              if c = .ROLL_HP then hp_roll_path info cur_stats ds
              else hp_avg_path info cur_stats ds
        match hp with
        | .exn e => .exn e
        | .moreDraws => .moreDraws
        | .ok (hp_increase, char') =>
          .ok ({ level_class := level_class, level := level,
                 cur_stats := cur_stats, hp_method := hp_method,
                 asi_method := asi_method, stat_focus := stat_focus,
                 features := features, asi := asi, new_stats := new_stats,
                 hp_increase := hp_increase }, char', glob')

/-! ## Concrete fixtures used by the theorems -/

/-- Scores all at the cap except an odd 19 in the first focus slot. -/
def statsC2 : Dict :=
  [("Str", 19), ("Dex", 20), ("Con", 20), ("Int", 20), ("Wis", 20), ("Cha", 20)]

/-- Scores all at the cap except a 19 in the last focus slot. -/
def statsC6 : Dict :=
  [("Str", 20), ("Dex", 20), ("Con", 20), ("Int", 20), ("Wis", 20), ("Cha", 19)]

/-- Every stat at the cap of 20. -/
def statsAll20 : Dict :=
  [("Str", 20), ("Dex", 20), ("Con", 20), ("Int", 20), ("Wis", 20), ("Cha", 20)]

/-- Every stat at 10. -/
def statsAll10 : Dict :=
  [("Str", 10), ("Dex", 10), ("Con", 10), ("Int", 10), ("Wis", 10), ("Cha", 10)]

/-- A race with no flat bonuses and a one-point ASI grant carrying the
deny-list `not_allowed = 'Str'`. -/
def raceC3 : RaceEntry :=
  { bonuses := [("Str", 0), ("Dex", 0), ("Con", 0), ("Int", 0), ("Wis", 0), ("Cha", 0)],
    asi := some { number := 1, allowed := none, not_allowed := some "Str" } }

/-- A race bonus table covering all six stats with zero bonuses. -/
def bonC9 : Dict :=
  [("Str", 0), ("Dex", 0), ("Con", 0), ("Int", 0), ("Wis", 0), ("Cha", 0)]

/-- A race with all-zero bonuses and no ASI grant. -/
def raceC9 : RaceEntry := { bonuses := bonC9, asi := none }

/-- A stat focus listing only five of the six required stat names. -/
def focusFive : List String := ["Str", "Dex", "Con", "Int", "Wis"]

/-- A one-class rule table whose level-4 entry grants an ASI
(hit die d10, published average 6). -/
def classDataC5 : List (String × ClassInfo) :=
  [("Fighter",
    { LevelTable := [(4, ["Ability Score Improvement"])],
      HitDiceValue := 10, HitDiceAvg := 6 })]

/-- A mid-game stat line with Constitution 14. -/
def statsC5 : Dict :=
  [("Str", 16), ("Dex", 14), ("Con", 14), ("Int", 12), ("Wis", 10), ("Cha", 8)]

/-! ## Claim C1 -/

/-- Claim C1: the claim says `stat_mod_from_score` returns the integer
`floor((10 - s) / 2)` for every integer score, in particular `-2` at 14.
The code disagrees: its guard `type(score) == 'int'` compares the type
object with a string and never holds, so the function returns `None` for
every integer input, while the formula the spec states would give `-2` at
14.  The guarded return statement shows the formula was the intent, so this
is a defect in the code. -/
theorem c1_stat_mod_from_score_is_always_none :
    (∀ s : Int, stat_mod_from_score s = none) ∧ stat_mod_spec 14 = -2 := by
  constructor
  · intro s
    rfl
  · rfl

/-! ## Claim C2 -/

/-- Claim C2: the claim says `choose_stats` never lets a selection push a
score above 20.  Concrete refutation: with `FOCUS_ODD_TO_EVEN`, the focus
order `[Str, Dex, Con, Int, Wis, Cha]`, Str at 19 and every other stat at
20 (all scores at most 20, no restriction), the odd pass queues Str once
and the strict fallback — whose headroom formula *adds* the already-queued
count instead of subtracting it — queues Str again, returning
`[Str, Str]`; applying it yields Str = 21. -/
theorem c2_odd_to_even_exceeds_twenty :
    choose_stats .FOCUS_ODD_TO_EVEN sixStats statsC2 [] none =
      .ok (["Str", "Str"], []) ∧
    dictGet statsC2 "Str" = some 19 ∧
    perform_asi statsC2 ["Str", "Str"] =
      .ok [("Str", 21), ("Dex", 20), ("Con", 20), ("Int", 20), ("Wis", 20), ("Cha", 20)] := by
  refine ⟨rfl, rfl, rfl⟩

/-! ## Claim C3 -/

/-- Claim C3: the claim says a racial ASI grant with a deny-list never
improves the excluded stat.  The code disagrees: the `not_allowed` branch
sets the option list to the full six-stat list without removing the named
stat, so the restriction filters nothing.  With `not_allowed = 'Str'`,
zero flat bonuses, the standard array and strict focus, construction
raises Str from 15 to 16 — the excluded stat is improved.  The dead
`not_allowed` key (produced by the data pipeline precisely to exclude a
stat) shows this is a defect in the code. -/
theorem c3_not_allowed_stat_still_improved :
    racial_stat_opts { number := 1, allowed := none, not_allowed := some "Str" } =
      some sixStats ∧
    character_init_stats raceC3 sixStats .STANDARD_ARRAY .STRICT_FOCUS [] =
      .ok ([("Str", 16), ("Dex", 14), ("Con", 13), ("Int", 12), ("Wis", 10), ("Cha", 8)], []) := by
  refine ⟨rfl, rfl⟩

/-! ## Claim C5 -/

/-- Claim C5: the claim says a `RollHp` level step with an ASI records
`randint(1, hit die) + ConMod(post-ASI Con)`.  The code disagrees twice:
`stat_mod_from_score` returns `None` for every input, so the addition
raises `TypeError` and no hit-point increase is ever recorded; and the Con
score passed to it is `self.cur_stats['Con']` — the pre-ASI copy — not the
post-ASI value.  At a concrete ASI level (d10 hit die, Con 14, one roll
draw) the record construction raises. -/
theorem c5_roll_hp_level_record_raises :
    mkLevelRecord classDataC5 "Fighter" 4 statsC5 .ROLL_HP .STRICT_FOCUS
      sixStats [3] [] = .exn "TypeError" ∧
    stat_mod_from_score 14 = none := by
  refine ⟨rfl, rfl⟩

/-! ## Claim C7 -/

/-- Claim C7 counterexample: the claim says the `Random` strategy picks
uniformly among the three other strategies, each with probability 1/3, and
that `Random` is never a possible outcome of the choice.  The code
disagrees: the draw is taken from `list(StatSelection)`, which has four
entries including `RANDOM` itself (draw residue 3 yields it), and two of
the four equiprobable residues — 1 (`STANDARD_ARRAY`) and 3 (`RANDOM`) —
apply the standard array, giving it probability 1/2 rather than 1/3. -/
theorem c7_random_mode_draws_from_four :
    statSelectionList.length = 4 ∧
    random_mode_choice 3 = some StatSelection.RANDOM ∧
    ((List.range 4).filter fun d => random_mode_routine d == GenRoutine.standardArray)
      = [1, 3] ∧
    gen_raw_scores .RANDOM [1] = .ok ([15, 14, 13, 12, 10, 8], []) ∧
    gen_raw_scores .RANDOM [3] = .ok ([15, 14, 13, 12, 10, 8], []) := by
  refine ⟨rfl, rfl, rfl, rfl, rfl⟩

/-- Claim C7 as amended: in the `Random` stat-generation mode the code
draws uniformly from all four `StatSelection` values (so each residue of
the draw modulo 4 is equally likely, and `RANDOM` itself can be drawn);
residue 0 applies the 4d6-drop-lowest routine, residue 2 the 3d6 routine,
and residues 1 and 3 — the drawn `STANDARD_ARRAY` and the drawn `RANDOM` —
both apply the standard array, so the applied routine is the standard
array with probability 1/2 and the `Random` strategy itself is never
applied as a routine. -/
theorem c7_random_mode_routine_distribution (d : Nat) :
    random_mode_routine d =
      (if d % 4 = 0 then GenRoutine.roll4d6DropOne
       else if d % 4 = 2 then GenRoutine.roll3d6
       else GenRoutine.standardArray) := by
  have h4 : d % 4 = 0 ∨ d % 4 = 1 ∨ d % 4 = 2 ∨ d % 4 = 3 := by omega
  rcases h4 with h | h | h | h <;>
    simp [random_mode_routine, random_mode_choice, statSelectionList, h]

/-! ## Claim C6 -/

/-- Claim C6 counterexample: the claim says every iteration of the racial
ASI loop grants exactly one point (+1 to the first element of the computed
pair).  Concrete refutation: with strict focus, no restriction, and every
stat at 20 except Cha at 19, `choose_stats` returns the single-element
selection `[Cha]`; `choices.pop()` removes it and the iteration applies
`perform_asi` to the empty remainder, so the loop completes with the stats
unchanged — no stat received +1. -/
theorem c6_single_selection_improves_nothing :
    choose_stats .STRICT_FOCUS sixStats statsC6 [] none = .ok (["Cha"], []) ∧
    racial_asi_loop .STRICT_FOCUS sixStats none 1 statsC6 [] =
      .ok (statsC6, []) ∧
    dictGet statsC6 "Cha" = some 19 := by
  refine ⟨rfl, rfl, rfl⟩

/-! ## Claim C10 -/

/-- Claim C10: whenever a racial ASI iteration runs and `choose_stats`
returns the empty selection (no eligible stat with headroom, or a method
falling through to the default), the unconditional `choices.pop()` raises
`IndexError`, so construction fails instead of degrading to "no
improvement". -/
theorem c10_empty_selection_raises_index_error
    (select : ASISelection) (focus : List String)
    (opts : Option (List String)) (stats : Dict)
    (draws draws' : List Nat) (n : Nat)
    (h : choose_stats select focus stats draws opts = .ok ([], draws')) :
    racial_asi_loop select focus opts (n + 1) stats draws = .exn "IndexError" := by
  unfold racial_asi_loop
  rw [h]
  simp

/-- Witness for C10: with every stat already at 20 and strict focus the
selection is empty and one grant iteration raises `IndexError`. -/
theorem c10_empty_selection_raises_index_error_witness :
    choose_stats .STRICT_FOCUS sixStats statsAll20 [] none = .ok ([], []) ∧
    racial_asi_loop .STRICT_FOCUS sixStats none 1 statsAll20 [] =
      .exn "IndexError" :=
  ⟨by decide,
   c10_empty_selection_raises_index_error .STRICT_FOCUS sixStats none
     statsAll20 [] [] 0 (by decide)⟩

/-! ## Claim C9 -/

/-- Claim C9 counterexample: the claim says construction is a hard failure
whenever the stat focus is not a permutation of the six required names.
Concrete refutation: with the five-name focus `[Str, Dex, Con, Int, Wis]`,
the standard array, an all-zero bonus table and no racial ASI,
construction completes normally and yields a character whose stats mapping
has only five keys. -/
theorem c9_short_focus_construction_completes :
    character_init_stats raceC9 focusFive .STANDARD_ARRAY .STRICT_FOCUS [] =
      .ok ([("Str", 15), ("Dex", 14), ("Con", 13), ("Int", 12), ("Wis", 10)], []) ∧
    ([("Str", 15), ("Dex", 14), ("Con", 13), ("Int", 12), ("Wis", 10)] : Dict).length = 5 := by
  refine ⟨rfl, rfl⟩

/-! ### Dictionary lemmas -/

theorem dictGet_dictSet (d : Dict) (k : String) (v : Int) (s : String) :
    dictGet (dictSet d k v) s = if k = s then some v else dictGet d s := by
  induction d with
  | nil =>
    by_cases hs : k = s <;> simp [dictSet, dictGet, hs]
  | cons p rest ih =>
    obtain ⟨k', v'⟩ := p
    by_cases hk : k' = k
    · subst hk
      by_cases hs : k' = s <;> simp [dictSet, dictGet, hs]
    · by_cases hs : k' = s
      · subst hs
        have hks : ¬ k = k' := fun he => hk he.symm
        simp [dictSet, dictGet, hk, hks]
      · simp [dictSet, dictGet, hk, hs, ih]

theorem dictHas_dictSet_of (d : Dict) (k : String) (v : Int) (s : String)
    (h : dictHas d s = true) : dictHas (dictSet d k v) s = true := by
  unfold dictHas at h ⊢
  rw [dictGet_dictSet]
  by_cases hk : k = s <;> simp [hk, h]

theorem dictHas_dictSet_self (d : Dict) (k : String) (v : Int) :
    dictHas (dictSet d k v) k = true := by
  unfold dictHas
  rw [dictGet_dictSet]
  simp

theorem dictHas_dictOfZipAux_of (ks : List String) :
    ∀ (vs : List Int) (acc : Dict) (s : String), dictHas acc s = true →
      dictHas (dictOfZipAux acc ks vs) s = true := by
  induction ks with
  | nil =>
    intro vs acc s h
    simpa [dictOfZipAux] using h
  | cons k ks ih =>
    intro vs acc s h
    cases vs with
    | nil => simpa [dictOfZipAux] using h
    | cons v vs =>
      simp only [dictOfZipAux]
      exact ih vs (dictSet acc k v) s (dictHas_dictSet_of acc k v s h)

theorem dictHas_dictOfZipAux (ks : List String) :
    ∀ (vs : List Int) (acc : Dict) (s : String), s ∈ ks → ks.length ≤ vs.length →
      dictHas (dictOfZipAux acc ks vs) s = true := by
  induction ks with
  | nil =>
    intro vs acc s hs _
    simp at hs
  | cons k ks ih =>
    intro vs acc s hs hlen
    cases vs with
    | nil => simp at hlen
    | cons v vs =>
      simp only [dictOfZipAux]
      rcases List.mem_cons.mp hs with h | h
      · subst h
        exact dictHas_dictOfZipAux_of ks vs (dictSet acc s v) s
          (dictHas_dictSet_self acc s v)
      · refine ih vs (dictSet acc k v) s h ?_
        simp only [List.length_cons] at hlen
        omega

theorem apply_bonuses_ok (bon : Dict) (focus : List String) :
    ∀ stats : Dict, (∀ s ∈ focus, dictHas stats s = true) →
      (∀ s ∈ focus, dictHas bon s = true) →
      ∃ d, apply_bonuses bon stats focus = .ok d := by
  induction focus with
  | nil =>
    intro stats _ _
    exact ⟨stats, rfl⟩
  | cons s rest ih =>
    intro stats h1 h2
    have hs : dictHas stats s = true := h1 s (by simp)
    have hb : dictHas bon s = true := h2 s (by simp)
    unfold dictHas at hs hb
    obtain ⟨cur, hcur⟩ := Option.isSome_iff_exists.mp hs
    obtain ⟨b, hbv⟩ := Option.isSome_iff_exists.mp hb
    have hstep : apply_bonuses bon stats (s :: rest) =
        apply_bonuses bon (dictSet stats s (cur + b)) rest := by
      simp only [apply_bonuses, hcur, hbv]
    rw [hstep]
    refine ih (dictSet stats s (cur + b)) ?_ ?_
    · intro t ht
      exact dictHas_dictSet_of stats s (cur + b) t (h1 t (List.mem_cons_of_mem s ht))
    · intro t ht
      exact h2 t (List.mem_cons_of_mem s ht)

/-- Claim C9 as amended: `Character.__init__` performs no validation of the
stat focus.  For any focus list of at most six names, each present in the
race bonus table, construction with the standard array and no racial ASI
completes normally (returning a stats mapping keyed by the focus entries,
hence with fewer than six scored stats when the focus is a proper subset);
only a focus entry missing from the stats or bonus mappings raises a
`KeyError`. -/
theorem c9_valid_subset_focus_completes (focus : List String) (bon : Dict)
    (asi_select : ASISelection) (hlen : focus.length ≤ 6)
    (hmem : ∀ s ∈ focus, dictHas bon s = true) :
    ∃ d, character_init_stats { bonuses := bon, asi := none } focus
      .STANDARD_ARRAY asi_select [] = .ok (d, []) := by
  have hsort : sortDesc [15, 14, 13, 12, 10, 8] = [15, 14, 13, 12, 10, 8] := rfl
  have hstats : ∀ s ∈ focus,
      dictHas (dictOfZip focus (sortDesc [15, 14, 13, 12, 10, 8])) s = true := by
    intro s hs
    rw [hsort]
    exact dictHas_dictOfZipAux focus [15, 14, 13, 12, 10, 8] [] s hs (by simpa using hlen)
  obtain ⟨d, hd⟩ :=
    apply_bonuses_ok bon focus (dictOfZip focus (sortDesc [15, 14, 13, 12, 10, 8]))
      hstats hmem
  refine ⟨d, ?_⟩
  have h1 : character_init_stats { bonuses := bon, asi := none } focus
      .STANDARD_ARRAY asi_select [] =
      match apply_bonuses bon (dictOfZip focus (sortDesc [15, 14, 13, 12, 10, 8])) focus with
      | .exn e => .exn e
      | .moreDraws => .moreDraws
      | .ok stats1 => .ok (stats1, []) := rfl
  rw [h1, hd]

/-- Witness for the amended C9: the five-name focus instance completes. -/
theorem c9_valid_subset_focus_completes_witness :
    ∃ d, character_init_stats { bonuses := bonC9, asi := none } focusFive
      .STANDARD_ARRAY .STRICT_FOCUS [] = .ok (d, []) :=
  c9_valid_subset_focus_completes focusFive bonC9 .STRICT_FOCUS (by decide) (by decide)

/-! ## Claim C8 -/

theorem randomPass_statsAll20 : ∀ (ds : List Nat) (retval : List String),
    retval.length < 2 →
      randomPass none sixStats statsAll20 ds retval = .moreDraws := by
  intro ds
  induction ds with
  | nil =>
    intro retval h
    simp [randomPass, h]
  | cons d rest ih =>
    intro retval h
    have hget : ∀ s ∈ sixStats, dictGet statsAll20 s = some 20 := by decide
    have h6 : d % sixStats.length < sixStats.length :=
      Nat.mod_lt _ (by norm_num [sixStats])
    simp only [randomPass, if_pos h]
    cases hg : sixStats.get? (d % sixStats.length) with
    | none =>
      exact absurd (List.get?_eq_none.mp hg) (by omega)
    | some s =>
      have hs20 : dictGet statsAll20 s = some 20 := hget s (List.get?_mem hg)
      have hc : ¬ ((20 : Int) + (retval.count s : Int) < 20) := by omega
      simp only [statOptsAllows, hs20, if_pos rfl, if_neg hc]
      exact ih retval h

/-- Claim C8: with every focus stat already at 20, the `RANDOM` selection
loop of `choose_stats` never terminates: however many random draws the
stream supplies, no draw is ever accepted (20 + queued is never below 20)
and the `while len(retval) < 2` loop is still running when they run out —
the function is not total without an iteration cap. -/
theorem c8_random_choose_stats_never_terminates (draws : List Nat) :
    choose_stats .RANDOM sixStats statsAll20 draws none = .moreDraws :=
  randomPass_statsAll20 draws [] (by norm_num)

/-! ## Claim C4 -/

/-- Claim C4 counterexample: the claim says all of a character's lifetime
randomness comes from its single seeded stream, so identical seed and
configuration replay identically.  Concrete refutation at the cited code:
`LevelRecord.__init__` builds its `ASIRecord` without passing the
character rng, so the ASI selection draws from the module-level shared
default stream; with the `RANDOM` ASI method and identical character-side
inputs, two states of that shared stream yield different chosen stats and
different post-ASI scores. -/
theorem c4_level_asi_depends_on_shared_stream :
    stageObs (level_asi_stage ["Ability Score Improvement"] .RANDOM
        statsAll10 sixStats [0, 0]) ≠
    stageObs (level_asi_stage ["Ability Score Improvement"] .RANDOM
        statsAll10 sixStats [1, 1]) := by
  decide

theorem choose_stats_nonrandom (method : ASISelection) (h : method ≠ .RANDOM)
    (focus : List String) (cur : Dict) (draws : List Nat)
    (opts : Option (List String)) :
    choose_stats method focus cur draws opts =
      match choose_stats method focus cur [] opts with
      | .ok (r, _) => .ok (r, draws)
      | .exn e => .exn e
      | .moreDraws => .moreDraws := by
  cases method with
  | RANDOM => exact absurd rfl h
  | STRICT_FOCUS =>
    simp only [choose_stats]
    cases strictPass opts cur focus [] <;> rfl
  | FOCUS_ODD_TO_EVEN =>
    simp only [choose_stats]
    cases oddPass opts cur focus [] with
    | ok r =>
      by_cases hr : r.length < 2
      · simp only [if_pos hr]
        cases strictPass opts cur focus r <;> rfl
      · simp only [if_neg hr]
    | exn e => rfl
    | moreDraws => rfl
  | FOCUS_NON_NEG_MOD =>
    simp only [choose_stats]
    cases nonNegPass opts cur focus [] with
    | ok r =>
      by_cases hr : r.length < 2
      · simp only [if_pos hr]
        cases strictPass opts cur focus r <;> rfl
      · simp only [if_neg hr]
    | exn e => rfl
    | moreDraws => rfl

/-- Claim C4 as amended: construction randomness and the level-step
hit-point rolls draw from the character's seeded stream, but the ASI
selection inside a level step draws from the module-level shared default
stream (the rng argument is omitted at the `ASIRecord` call), so replay
from the seed alone holds only when the configured ASI method makes no
random draws: for every non-`RANDOM` ASI method the observable outcome of
the level-step ASI stage is independent of the shared stream state, while
for `RANDOM` it is not. -/
theorem c4_nonrandom_level_asi_ignores_shared_stream
    (method : ASISelection) (h : method ≠ .RANDOM) (features : List String)
    (cur : Dict) (focus : List String) (g1 g2 : List Nat) :
    stageObs (level_asi_stage features method cur focus g1) =
    stageObs (level_asi_stage features method cur focus g2) := by
  unfold level_asi_stage
  by_cases hf : features.contains "Ability Score Improvement"
  · simp only [hf, if_true]
    unfold mkASIRecord
    rw [choose_stats_nonrandom method h focus cur g1 none,
        choose_stats_nonrandom method h focus cur g2 none]
    cases choose_stats method focus cur [] none with
    | ok p =>
      obtain ⟨r, d0⟩ := p
      dsimp only
      cases perform_asi cur r <;> rfl
    | exn e => rfl
    | moreDraws => rfl
  · simp only [hf]
    rfl

/-- Witness for the amended C4: with the strict-focus method the stage
result is the same for two different shared-stream states. -/
theorem c4_nonrandom_level_asi_ignores_shared_stream_witness :
    stageObs (level_asi_stage ["Ability Score Improvement"] .STRICT_FOCUS
        statsAll10 sixStats [0]) =
    stageObs (level_asi_stage ["Ability Score Improvement"] .STRICT_FOCUS
        statsAll10 sixStats [1]) :=
  c4_nonrandom_level_asi_ignores_shared_stream .STRICT_FOCUS (by decide)
    ["Ability Score Improvement"] statsAll10 sixStats [0] [1]

/-! ## Claim C6 (amended theorem) -/

/-- Claim C6 as amended: each racial ASI iteration computes a selection via
`choose_stats`, removes its *last* element (raising `IndexError` when the
selection is empty) and applies `+1` for each entry of the remaining
prefix: a two-element selection improves exactly the first element by one
point, while a one-element selection improves nothing that iteration. -/
theorem c6_racial_iteration_applies_dropLast
    (select : ASISelection) (focus : List String) (opts : Option (List String))
    (stats : Dict) (draws draws' : List Nat) (choices : List String)
    (h : choose_stats select focus stats draws opts = .ok (choices, draws'))
    (hne : choices ≠ []) :
    (choices.length = 1 →
      racial_asi_loop select focus opts 1 stats draws = .ok (stats, draws')) ∧
    (∀ stats', perform_asi stats choices.dropLast = .ok stats' →
      racial_asi_loop select focus opts 1 stats draws = .ok (stats', draws')) := by
  have hstep : racial_asi_loop select focus opts 1 stats draws =
      (if choices = [] then .exn "IndexError"
       else
        match perform_asi stats choices.dropLast with
        | .exn e => .exn e
        | .moreDraws => .moreDraws
        | .ok stats' => racial_asi_loop select focus opts 0 stats' draws') := by
    unfold racial_asi_loop
    rw [h]
    rfl
  constructor
  · intro h1
    obtain ⟨a, ha⟩ := List.length_eq_one.mp h1
    subst ha
    rw [hstep, if_neg hne]
    rfl
  · intro stats' hp
    rw [hstep, if_neg hne, hp]
    rfl

/-- Witness for the amended C6: the one-element selection `[Cha]` leaves
the stats unchanged after one grant iteration. -/
theorem c6_racial_iteration_applies_dropLast_witness :
    racial_asi_loop .STRICT_FOCUS sixStats none 1 statsC6 [] =
      .ok (statsC6, []) :=
  (c6_racial_iteration_applies_dropLast .STRICT_FOCUS sixStats none statsC6
    [] [] ["Cha"] (by decide) (by decide)).1 rfl

end CharSim
